import Mathlib

/-!
Verification of the `learning_cell` repository: two wrapper primitives over a
fixed immutable record. Component A is the single-owner mutable cell (`Cell`),
Component B is the tracked-borrow mutable cell (`RefCell`). The two `Immutable`
records and their `default` constructors are taken from `src/src/lib.rs`; the
wrapper operations themselves come from the standard library, so they are
modelled from the specification's description of their semantics.
-/

/-- A small universe of the element types used by the repository: `i32` and
`String`. -/
inductive Ty where
  | i32
  | str
deriving DecidableEq, Repr

/-- Interpretation of the element-type codes as Lean types. -/
def Ty.interp : Ty → Type
  | .i32 => Int
  | .str => String

/-- Whether a type is trivially duplicable (the `Copy` trait): `i32` is,
`String` is not. -/
def Ty.copy : Ty → Bool
  | .i32 => true
  | .str => false

/-- Modelled from the spec: the single-owner mutable cell (Component A) holds
exactly one value; no runtime bookkeeping. -/
structure Cell (α : Type) where
  value : α
deriving DecidableEq, Repr

/-- Modelled from the spec: construct a cell holding `v`. -/
def Cell.new {α : Type} (v : α) : Cell α := ⟨v⟩

/-- Modelled from the spec: `set(new_value)` unconditionally overwrites the
interior value, discarding the previous one; defined for every element type,
with no failure mode (the result type is `Cell α`, not an error carrier). -/
def Cell.set {α : Type} (_c : Cell α) (v : α) : Cell α := ⟨v⟩

/-- Modelled from the spec: `get()` returns a duplicate of the interior value;
it is defined only for trivially duplicable element types, witnessed by the
static hypothesis `t.copy = true`. -/
def Cell.get {t : Ty} (c : Cell t.interp) (_h : t.copy = true) : t.interp :=
  c.value

/-- Modelled from the spec: `replace(new_value)` swaps the stored value with
the supplied one and returns the previous value. -/
def Cell.replace {α : Type} (c : Cell α) (v : α) : α × Cell α :=
  (c.value, ⟨v⟩)

/-- Modelled from the spec: `swap` exchanges the interior values of two cells
of the same wrapper type. -/
def Cell.swap {α : Type} (c d : Cell α) : Cell α × Cell α :=
  (⟨d.value⟩, ⟨c.value⟩)

/-- The immutable record of the `Cell` module of `src/src/lib.rs`: a plain
`regular` field and two wrapped fields. -/
structure Cell.Immutable where
  regular : Int
  special : Cell Int
  special_nocopy : Cell String
deriving DecidableEq, Repr

/-- The `Default` impl of `Cell::Immutable` in `src/src/lib.rs`:
`regular = 1`, `special = Cell::new(42)`, `special_nocopy = Cell::new("hi")`. -/
def Cell.Immutable.default : Cell.Immutable :=
  { regular := 1, special := Cell.new 42, special_nocopy := Cell.new "hi" }

/-- An arbitrary operation on the `special` field of the `Cell` record,
modelling that every wrapper method touches only its own field. -/
def Cell.Immutable.updateSpecial (a : Cell.Immutable)
    (f : Cell Int → Cell Int) : Cell.Immutable :=
  { a with special := f a.special }

/-- An arbitrary operation on the `special_nocopy` field of the `Cell`
record. -/
def Cell.Immutable.updateSpecialNocopy (a : Cell.Immutable)
    (f : Cell String → Cell String) : Cell.Immutable :=
  { a with special_nocopy := f a.special_nocopy }

/-- The borrow-conflict condition of Component B; the fatal variants abort
with it and the `try_` variants return it as an error value. -/
inductive BorrowConflict where
  | conflict
deriving DecidableEq, Repr

/-- Modelled from the spec: the tracked-borrow mutable cell (Component B)
holds one value plus a runtime counter (the `borrow` field of the source's
description): `0` means unused, positive counts shared references, `-1` marks
the single exclusive reference. -/
structure RefCell (α : Type) where
  value : α
  borrowCount : Int
deriving DecidableEq, Repr

/-- Modelled from the spec: construct a tracked-borrow cell holding `v`, with
no outstanding references. -/
def RefCell.new {α : Type} (v : α) : RefCell α := ⟨v, 0⟩

/-- Modelled from the spec: `try_borrow` succeeds when the counter is
nonnegative, incrementing it; with an exclusive reference outstanding it
returns the borrow-conflict error. -/
def RefCell.try_borrow {α : Type} (c : RefCell α) :
    Except BorrowConflict (RefCell α) :=
  if 0 ≤ c.borrowCount then .ok { c with borrowCount := c.borrowCount + 1 }
  else .error .conflict

/-- Modelled from the spec: `try_borrow_mut` succeeds only when the counter is
exactly `0`, setting it to `-1`; otherwise it returns the borrow-conflict
error. -/
def RefCell.try_borrow_mut {α : Type} (c : RefCell α) :
    Except BorrowConflict (RefCell α) :=
  if c.borrowCount = 0 then .ok { c with borrowCount := -1 }
  else .error .conflict

/-- Modelled from the spec: the fatal `borrow` calls `try_borrow` under the
hood and panics on `Err`; the panic is modelled as `none`. -/
def RefCell.borrow {α : Type} (c : RefCell α) : Option (RefCell α) :=
  match c.try_borrow with
  | .ok c2 => some c2
  | .error _ => none

/-- Modelled from the spec: the fatal `borrow_mut` calls `try_borrow_mut`
under the hood and panics on `Err`; the panic is modelled as `none`. -/
def RefCell.borrow_mut {α : Type} (c : RefCell α) : Option (RefCell α) :=
  match c.try_borrow_mut with
  | .ok c2 => some c2
  | .error _ => none

/-- Modelled from the spec: dropping a shared-reference handle decrements the
counter. -/
def RefCell.release_shared {α : Type} (c : RefCell α) : RefCell α :=
  { c with borrowCount := c.borrowCount - 1 }

/-- Modelled from the spec: dropping the exclusive-reference handle resets the
counter to `0`. -/
def RefCell.release_mut {α : Type} (c : RefCell α) : RefCell α :=
  { c with borrowCount := 0 }

/-- Modelled from the spec: `replace` first attempts an exclusive borrow,
swaps in the new value returning the old one, and releases the borrow; on
conflict it signals the same borrow-conflict condition. -/
def RefCell.replace {α : Type} (c : RefCell α) (v : α) :
    Except BorrowConflict (α × RefCell α) :=
  match c.try_borrow_mut with
  | .ok c2 => .ok (c2.value, RefCell.release_mut { c2 with value := v })
  | .error e => .error e

/-- Modelled from the spec: `swap` requires exclusive access to both cells,
exchanges the values and releases; on conflict it signals borrow-conflict. -/
def RefCell.swap {α : Type} (c d : RefCell α) :
    Except BorrowConflict (RefCell α × RefCell α) :=
  match c.try_borrow_mut with
  | .error e => .error e
  | .ok c2 =>
      match d.try_borrow_mut with
      | .error e => .error e
      | .ok d2 =>
          .ok (RefCell.release_mut { c2 with value := d.value },
               RefCell.release_mut { d2 with value := c.value })

/-- The type-appropriate default used by `take`: `0` for `i32`, the empty
string for `String`. -/
class Default (α : Type) where
  default_value : α

instance : Default Int := ⟨0⟩

instance : Default String := ⟨""⟩

/-- Modelled from the spec: `take` first attempts an exclusive borrow,
extracts the value replacing it with the type-appropriate default, and
releases; on conflict it signals borrow-conflict. -/
def RefCell.take {α : Type} [Default α] (c : RefCell α) :
    Except BorrowConflict (α × RefCell α) :=
  match c.try_borrow_mut with
  | .ok c2 =>
      .ok (c2.value, RefCell.release_mut { c2 with value := Default.default_value })
  | .error e => .error e

/-- The four borrow-lifecycle events of Component B: acquiring and releasing
shared and exclusive references. -/
inductive BorrowOp where
  | acquireShared
  | acquireExclusive
  | releaseShared
  | releaseExclusive
deriving DecidableEq, Repr

/-- One borrow-lifecycle event applied to a tracked-borrow cell. Acquisitions
follow `borrow`/`borrow_mut`; a release event is only possible for a handle
that is actually held, so it is guarded by the counter. -/
def RefCell.applyOp {α : Type} (c : RefCell α) : BorrowOp → Option (RefCell α)
  | .acquireShared => c.borrow
  | .acquireExclusive => c.borrow_mut
  | .releaseShared =>
      if 0 < c.borrowCount then some c.release_shared else none
  | .releaseExclusive =>
      if c.borrowCount = -1 then some c.release_mut else none

/-- A sequence of borrow-lifecycle events, failing if any single event
fails. -/
def RefCell.runOps {α : Type} (c : RefCell α) : List BorrowOp → Option (RefCell α)
  | [] => some c
  | op :: ops =>
      match c.applyOp op with
      | some c2 => c2.runOps ops
      | none => none

/-- The three logical states of the runtime counter: `0` (unused), positive
(shared references), or exactly `-1` (the exclusive reference). -/
def RefCell.counterOK {α : Type} (c : RefCell α) : Prop :=
  c.borrowCount = 0 ∨ 0 < c.borrowCount ∨ c.borrowCount = -1

instance {α : Type} (c : RefCell α) : Decidable c.counterOK := by
  unfold RefCell.counterOK
  infer_instance

/-- The immutable record of the `RefCell` module of `src/src/lib.rs`. -/
structure RefCell.Immutable where
  regular : Int
  special : RefCell Int
  special_nocopy : RefCell String
deriving DecidableEq, Repr

/-- The `Default` impl of `RefCell::Immutable` in `src/src/lib.rs`:
`regular = 1`, `special = RefCell::new(42)`,
`special_nocopy = RefCell::new("hi")`. -/
def RefCell.Immutable.default : RefCell.Immutable :=
  { regular := 1, special := RefCell.new 42, special_nocopy := RefCell.new "hi" }

/-- An arbitrary operation on the `special` field of the `RefCell` record. -/
def RefCell.Immutable.updateSpecial (a : RefCell.Immutable)
    (f : RefCell Int → RefCell Int) : RefCell.Immutable :=
  { a with special := f a.special }

/-- An arbitrary operation on the `special_nocopy` field of the `RefCell`
record. -/
def RefCell.Immutable.updateSpecialNocopy (a : RefCell.Immutable)
    (f : RefCell String → RefCell String) : RefCell.Immutable :=
  { a with special_nocopy := f a.special_nocopy }

/-- C5: for Component A and every pair of values `v, w`, `set(v)` followed by
`replace(w)` returns `v`, and the cell afterwards holds `w`. -/
theorem Cell.set_then_replace {α : Type} (c : Cell α) (v w : α) :
    ((c.set v).replace w).1 = v ∧ ((c.set v).replace w).2.value = w :=
  ⟨rfl, rfl⟩

/-- C6: for Component A, `set` is defined for every element type, takes no
precondition, has no failure mode and unconditionally overwrites the interior
value, discarding the previous one: the result holds exactly the new value and
does not depend on the prior contents; in particular it works on the
non-duplicable `special_nocopy` field. -/
theorem Cell.set_total_overwrite :
    (∀ (α : Type) (c : Cell α) (v : α),
      (c.set v).value = v ∧ ∀ d : Cell α, c.set v = d.set v) ∧
    (Cell.Immutable.default.special_nocopy.set "bye").value = "bye" ∧
    (Cell.Immutable.default.special.set 2).value = 2 :=
  ⟨fun _ _ _ => ⟨rfl, fun _ => rfl⟩, rfl, rfl⟩

/-- C8: for each component, the default-constructed record holds exactly
`regular = 1`, `special = 42`, `special_nocopy = "hi"` (and, for Component B,
no outstanding references). -/
theorem default_initial_values :
    Cell.Immutable.default.regular = 1 ∧
    Cell.Immutable.default.special.value = 42 ∧
    Cell.Immutable.default.special_nocopy.value = "hi" ∧
    RefCell.Immutable.default.regular = 1 ∧
    RefCell.Immutable.default.special.value = 42 ∧
    RefCell.Immutable.default.special_nocopy.value = "hi" ∧
    RefCell.Immutable.default.special.borrowCount = 0 ∧
    RefCell.Immutable.default.special_nocopy.borrowCount = 0 :=
  ⟨rfl, rfl, rfl, rfl, rfl, rfl, rfl, rfl⟩

/-- C7: for Component A, `get` returns a duplicate of the interior value and
is available only for trivially duplicable element types: on the `i32` type it
returns the last `set`/`replace` argument, while for `String` the duplicability
flag is `false`, so no static witness for a `get` call can exist. -/
theorem Cell.get_copy_only :
    Ty.copy Ty.i32 = true ∧
    Ty.copy Ty.str = false ∧
    (∀ (c : Cell (Ty.interp Ty.i32)) (v : Ty.interp Ty.i32),
      Cell.get (t := Ty.i32) (c.set v) rfl = v ∧
      Cell.get (t := Ty.i32) (c.replace v).2 rfl = v) :=
  ⟨rfl, rfl, fun _ _ => ⟨rfl, rfl⟩⟩

/-- C10: every operation on the `special` or `special_nocopy` wrapper of
either component's record leaves the other two fields of the record
unchanged. -/
theorem field_ops_frame :
    (∀ (a : Cell.Immutable) (f : Cell Int → Cell Int),
      (a.updateSpecial f).regular = a.regular ∧
      (a.updateSpecial f).special_nocopy = a.special_nocopy) ∧
    (∀ (a : Cell.Immutable) (f : Cell String → Cell String),
      (a.updateSpecialNocopy f).regular = a.regular ∧
      (a.updateSpecialNocopy f).special = a.special) ∧
    (∀ (a : RefCell.Immutable) (f : RefCell Int → RefCell Int),
      (a.updateSpecial f).regular = a.regular ∧
      (a.updateSpecial f).special_nocopy = a.special_nocopy) ∧
    (∀ (a : RefCell.Immutable) (f : RefCell String → RefCell String),
      (a.updateSpecialNocopy f).regular = a.regular ∧
      (a.updateSpecialNocopy f).special = a.special) :=
  ⟨fun _ _ => ⟨rfl, rfl⟩, fun _ _ => ⟨rfl, rfl⟩,
   fun _ _ => ⟨rfl, rfl⟩, fun _ _ => ⟨rfl, rfl⟩⟩

/-- C1: for Component B, acquiring a shared reference on an idle cell
succeeds; while it is live, the fatal `borrow_mut` aborts and `try_borrow_mut`
returns the borrow-conflict error; after the shared reference is released, the
exclusive borrow succeeds. -/
theorem RefCell.shared_then_exclusive_conflict {α : Type} (c : RefCell α)
    (h : c.borrowCount = 0) :
    c.borrow = some { c with borrowCount := 1 } ∧
    RefCell.borrow_mut { c with borrowCount := 1 } = none ∧
    RefCell.try_borrow_mut { c with borrowCount := 1 } =
      Except.error BorrowConflict.conflict ∧
    (RefCell.release_shared { c with borrowCount := 1 }).borrow_mut =
      some { c with borrowCount := -1 } := by
  refine ⟨?_, ?_, ?_, ?_⟩ <;>
    simp [RefCell.borrow, RefCell.borrow_mut, RefCell.try_borrow,
      RefCell.try_borrow_mut, RefCell.release_shared, h]

/-- Witness for C1 at the default `special` field, which starts idle. -/
theorem RefCell.shared_then_exclusive_conflict_witness :
    RefCell.Immutable.default.special.borrow =
      some { RefCell.Immutable.default.special with borrowCount := 1 } ∧
    RefCell.borrow_mut
      { RefCell.Immutable.default.special with borrowCount := 1 } = none ∧
    RefCell.try_borrow_mut
      { RefCell.Immutable.default.special with borrowCount := 1 } =
      Except.error BorrowConflict.conflict ∧
    (RefCell.release_shared
      { RefCell.Immutable.default.special with borrowCount := 1 }).borrow_mut =
      some { RefCell.Immutable.default.special with borrowCount := -1 } :=
  RefCell.shared_then_exclusive_conflict RefCell.Immutable.default.special rfl

/-- C2: for Component B, while an exclusive reference is outstanding (counter
is `-1`), every further borrow request, shared or exclusive, fatal or `try_`,
signals the borrow-conflict condition; after the exclusive reference is
released (counter reset to `0`), new shared and exclusive borrows succeed
again. -/
theorem RefCell.exclusive_blocks_all {α : Type} (c : RefCell α)
    (h : c.borrowCount = -1) :
    c.borrow = none ∧
    c.borrow_mut = none ∧
    c.try_borrow = Except.error BorrowConflict.conflict ∧
    c.try_borrow_mut = Except.error BorrowConflict.conflict ∧
    c.release_mut.borrow = some { c with borrowCount := 1 } ∧
    c.release_mut.borrow_mut = some { c with borrowCount := -1 } := by
  refine ⟨?_, ?_, ?_, ?_, ?_, ?_⟩ <;>
    simp [RefCell.borrow, RefCell.borrow_mut, RefCell.try_borrow,
      RefCell.try_borrow_mut, RefCell.release_mut, h]

/-- Witness for C2 at the exclusively borrowed default `special` field. -/
theorem RefCell.exclusive_blocks_all_witness :
    RefCell.borrow (⟨42, -1⟩ : RefCell Int) = none ∧
    RefCell.borrow_mut (⟨42, -1⟩ : RefCell Int) = none ∧
    RefCell.try_borrow (⟨42, -1⟩ : RefCell Int) =
      Except.error BorrowConflict.conflict ∧
    RefCell.try_borrow_mut (⟨42, -1⟩ : RefCell Int) =
      Except.error BorrowConflict.conflict ∧
    (RefCell.release_mut (⟨42, -1⟩ : RefCell Int)).borrow =
      some { (⟨42, -1⟩ : RefCell Int) with borrowCount := 1 } ∧
    (RefCell.release_mut (⟨42, -1⟩ : RefCell Int)).borrow_mut =
      some { (⟨42, -1⟩ : RefCell Int) with borrowCount := -1 } :=
  RefCell.exclusive_blocks_all (⟨42, -1⟩ : RefCell Int) rfl

/-- Helper: a successful fatal `borrow` requires a nonnegative counter and
increments it. -/
theorem RefCell.borrow_shape {α : Type} (c c2 : RefCell α)
    (h2 : c.borrow = some c2) :
    0 ≤ c.borrowCount ∧ c2.borrowCount = c.borrowCount + 1 := by
  unfold RefCell.borrow RefCell.try_borrow at h2
  by_cases hb : 0 ≤ c.borrowCount
  · rw [if_pos hb] at h2
    refine ⟨hb, ?_⟩
    have h3 := Option.some.inj h2
    rw [← h3]
  · rw [if_neg hb] at h2
    simp at h2

/-- Helper: a successful fatal `borrow_mut` requires a zero counter and sets
it to `-1`. -/
theorem RefCell.borrow_mut_shape {α : Type} (c c2 : RefCell α)
    (h2 : c.borrow_mut = some c2) :
    c.borrowCount = 0 ∧ c2.borrowCount = -1 := by
  unfold RefCell.borrow_mut RefCell.try_borrow_mut at h2
  by_cases hb : c.borrowCount = 0
  · rw [if_pos hb] at h2
    refine ⟨hb, ?_⟩
    have h3 := Option.some.inj h2
    rw [← h3]
  · rw [if_neg hb] at h2
    simp at h2

/-- Helper: a single borrow-lifecycle event preserves the three-state shape of
the counter. -/
theorem RefCell.applyOp_counterOK {α : Type} (c c2 : RefCell α) (op : BorrowOp)
    (h : c.counterOK) (h2 : c.applyOp op = some c2) : c2.counterOK := by
  unfold RefCell.counterOK at h ⊢
  cases op
  case acquireShared =>
    have h3 := RefCell.borrow_shape c c2 h2
    omega
  case acquireExclusive =>
    have h3 := RefCell.borrow_mut_shape c c2 h2
    omega
  case releaseShared =>
    simp only [RefCell.applyOp] at h2
    by_cases hb : 0 < c.borrowCount
    · rw [if_pos hb] at h2
      have h3 := Option.some.inj h2
      rw [← h3]
      simp only [RefCell.release_shared]
      omega
    · rw [if_neg hb] at h2
      simp at h2
  case releaseExclusive =>
    simp only [RefCell.applyOp] at h2
    by_cases hb : c.borrowCount = -1
    · rw [if_pos hb] at h2
      have h3 := Option.some.inj h2
      rw [← h3]
      simp [RefCell.release_mut]
    · rw [if_neg hb] at h2
      simp at h2

/-- Helper: a sequence of borrow-lifecycle events preserves the three-state
shape of the counter. -/
theorem RefCell.runOps_counterOK {α : Type} (ops : List BorrowOp) :
    ∀ (c c2 : RefCell α), c.counterOK → c.runOps ops = some c2 → c2.counterOK := by
  induction ops with
  | nil =>
      intro c c2 h h2
      simp only [RefCell.runOps, Option.some.injEq] at h2
      exact h2 ▸ h
  | cons op ops ih =>
      intro c c2 h h2
      simp only [RefCell.runOps] at h2
      rcases h3 : c.applyOp op with _ | c3
      · rw [h3] at h2; exact absurd h2 (by simp)
      · rw [h3] at h2
        exact ih c3 c2 (RefCell.applyOp_counterOK c c3 op h h3) h2

/-- C3: for Component B, starting from any counter in one of the three logical
states (`0`, positive, or exactly `-1`), every successful sequence of borrow
acquisitions and releases keeps the counter in one of those states; and
concretely, two successive shared borrows both succeed leaving the counter at
`2`, and releasing both returns it to `0`. -/
theorem RefCell.counter_three_states :
    (∀ (α : Type) (ops : List BorrowOp) (c c2 : RefCell α),
      c.counterOK → c.runOps ops = some c2 → c2.counterOK) ∧
    (RefCell.new (42 : Int)).runOps
      [BorrowOp.acquireShared, BorrowOp.acquireShared] = some ⟨42, 2⟩ ∧
    (RefCell.new (42 : Int)).runOps
      [BorrowOp.acquireShared, BorrowOp.acquireShared,
       BorrowOp.releaseShared, BorrowOp.releaseShared] = some ⟨42, 0⟩ :=
  ⟨fun _ ops c c2 h h2 => RefCell.runOps_counterOK ops c c2 h h2,
   by decide, by decide⟩

/-- Witness for C3: the quantified part applied at the two-shared-borrows run
from the default `special` field, whose final counter state is checked by
evaluation. -/
theorem RefCell.counter_three_states_witness :
    RefCell.counterOK (⟨42, 2⟩ : RefCell Int) :=
  RefCell.counter_three_states.1 Int
    [BorrowOp.acquireShared, BorrowOp.acquireShared]
    RefCell.Immutable.default.special ⟨42, 2⟩ (by decide) (by decide)

/-- C4: for Component B, `take()` on the freshly constructed default instance
returns the original stored values (`42`, `"hi"`) and leaves the cells holding
the element types' defaults (`0`, `""`); and while any live borrow is
outstanding (nonzero counter), `take`, `replace` and `swap` all signal the
borrow-conflict condition. -/
theorem RefCell.take_replace_swap_require_exclusive (c : RefCell Int)
    (h : c.borrowCount ≠ 0) :
    RefCell.Immutable.default.special.take = Except.ok (42, RefCell.new 0) ∧
    RefCell.Immutable.default.special_nocopy.take =
      Except.ok ("hi", RefCell.new "") ∧
    c.take = Except.error BorrowConflict.conflict ∧
    (∀ v : Int, c.replace v = Except.error BorrowConflict.conflict) ∧
    (∀ d : RefCell Int, c.swap d = Except.error BorrowConflict.conflict) := by
  refine ⟨rfl, rfl, ?_, ?_, ?_⟩ <;> intros <;>
    simp [RefCell.take, RefCell.replace, RefCell.swap, RefCell.try_borrow_mut, h]

/-- Witness for C4 at a cell with one live shared borrow. -/
theorem RefCell.take_replace_swap_require_exclusive_witness :
    RefCell.Immutable.default.special.take = Except.ok (42, RefCell.new 0) ∧
    RefCell.Immutable.default.special_nocopy.take =
      Except.ok ("hi", RefCell.new "") ∧
    RefCell.take (⟨42, 1⟩ : RefCell Int) = Except.error BorrowConflict.conflict ∧
    (∀ v : Int, RefCell.replace (⟨42, 1⟩ : RefCell Int) v =
      Except.error BorrowConflict.conflict) ∧
    (∀ d : RefCell Int, RefCell.swap (⟨42, 1⟩ : RefCell Int) d =
      Except.error BorrowConflict.conflict) :=
  RefCell.take_replace_swap_require_exclusive (⟨42, 1⟩ : RefCell Int) (by decide)

/-- C9: for Component B, a successful `try_borrow` is itself a live
acquisition: whenever the counter is nonnegative it returns `Ok` of a state
with the counter incremented and the value unchanged, exactly the state the
fatal `borrow` would produce, and on that state `try_borrow_mut` fails. -/
theorem RefCell.try_borrow_live_acquisition {α : Type} (c : RefCell α)
    (h : 0 ≤ c.borrowCount) :
    ∃ c2 : RefCell α,
      c.try_borrow = Except.ok c2 ∧
      c2.borrowCount = c.borrowCount + 1 ∧
      c2.value = c.value ∧
      c.borrow = some c2 ∧
      c2.try_borrow_mut = Except.error BorrowConflict.conflict := by
  refine ⟨{ c with borrowCount := c.borrowCount + 1 }, ?_, rfl, rfl, ?_, ?_⟩ <;>
    simp [RefCell.try_borrow, RefCell.borrow, RefCell.try_borrow_mut, h] <;>
    omega

/-- Witness for C9 at the default `special` field. -/
theorem RefCell.try_borrow_live_acquisition_witness :
    ∃ c2 : RefCell Int,
      RefCell.Immutable.default.special.try_borrow = Except.ok c2 ∧
      c2.borrowCount = RefCell.Immutable.default.special.borrowCount + 1 ∧
      c2.value = RefCell.Immutable.default.special.value ∧
      RefCell.Immutable.default.special.borrow = some c2 ∧
      c2.try_borrow_mut = Except.error BorrowConflict.conflict :=
  RefCell.try_borrow_live_acquisition RefCell.Immutable.default.special
    (by decide)
